import Mathlib

/-!
Shallow embedding of the cloud-resource monitoring and alerting backend
(src/backend of the repository): the data model of models.py, the
threshold evaluator of monitoring.py, the alert lifecycle operations of
alerting.py, the security-event classifier of security_events.py, the
audit-log queries of audit_log.py and the product deletion of crud.py.

Modelling conventions:
- Python UUID objects are opaque identifiers (and always truthy), so they
  become natural numbers; datetimes become natural numbers as well.
- JSON detail payloads become association lists from string keys to a
  small value type DVal.
- Metric values (Python floats compared with the order relation only)
  become rationals.
- The outbound channels (SMTP, Slack webhook) are consumed by the code
  solely through their boolean outcomes, so those outcomes are passed in
  as booleans; datetime.utcnow() and uuid4() results are passed in
  explicitly.
- A SQLAlchemy session becomes explicit state passing on a DB record;
  db.commit is the point where the updated record is produced, and an
  operation that raises before a commit leaves the record unchanged.
-/

namespace Backend

abbrev UUIDN := Nat

abbrev Time := Nat

/-- AlertStatus enum from models.py: active, resolved, acknowledged. -/
inductive AlertStatus
  | active
  | resolved
  | acknowledged
deriving DecidableEq, Repr

/-- AlertType enum from models.py: resource, security, misconfiguration. -/
inductive AlertType
  | resource
  | security
  | misconfiguration
deriving DecidableEq, Repr

/-- IncidentStatus enum from models.py: open, in_progress, resolved, closed
(the constructor for OPEN is spelled opened because open is a Lean keyword). -/
inductive IncidentStatus
  | opened
  | in_progress
  | resolved
  | closed
deriving DecidableEq, Repr

/-- Values stored in JSON details payloads (booleans for channel outcomes,
timestamps, strings). -/
inductive DVal
  | bool (b : Bool)
  | time (t : Time)
  | str (s : String)
deriving DecidableEq, Repr

abbrev Details := List (String × DVal)

/-- Product model from models.py. -/
structure Product where
  id : UUIDN
  name : String
  description : Option String
  created_at : Time
  updated_at : Time
deriving DecidableEq, Repr

/-- Resource model from models.py. -/
structure Resource where
  id : UUIDN
  product_id : UUIDN
  name : String
  cloud_id : String
  cloud_provider : String
  resource_type : String
  metadata : Details
  monitoring_enabled : Bool
  created_at : Time
  updated_at : Time
deriving DecidableEq, Repr

/-- Alert model from models.py. -/
structure Alert where
  id : UUIDN
  resource_id : Option UUIDN
  type : AlertType
  status : AlertStatus
  title : String
  description : Option String
  triggered_at : Time
  resolved_at : Option Time
  severity : String
  details : Details
  incident_id : Option UUIDN
deriving DecidableEq, Repr

/-- Incident model from models.py. -/
structure Incident where
  id : UUIDN
  resource_id : Option UUIDN
  status : IncidentStatus
  title : String
  description : Option String
  opened_at : Time
  closed_at : Option Time
  created_by : Option String
deriving DecidableEq, Repr

/-- AuditLog model from models.py. -/
structure AuditLog where
  id : UUIDN
  incident_id : Option UUIDN
  alert_id : Option UUIDN
  event_type : String
  event_time : Time
  actor : Option String
  details : Details
deriving DecidableEq, Repr

/-- The persistent state: one table per model. -/
structure DB where
  products : List Product
  resources : List Resource
  alerts : List Alert
  incidents : List Incident
  audit_logs : List AuditLog
deriving DecidableEq, Repr

/-- Error taxonomy of the HTTP layer as raised by the embedded operations
(fastapi HTTPException with 404, 400, 409). -/
inductive HttpError
  | notFound (detail : String)
  | badRequest (detail : String)
  | conflict (detail : String)
deriving DecidableEq, Repr

/-! Threshold evaluator, monitoring.py lines 90-103. -/

abbrev MetricMap := List (String × Option ℚ)

abbrev ThresholdMap := List (String × ℚ)

/-- One breach record as appended by evaluate_metrics. -/
structure Breach where
  metric : String
  value : ℚ
  threshold : ℚ
deriving DecidableEq, Repr

/-- Embeds evaluate_metrics from monitoring.py: iterate over the metric
mapping in order; for each metric fetch its threshold with thresholds.get;
when the threshold and the observed value are both present and
value > threshold, append a breach record. -/
def evaluate_metrics (metrics : MetricMap) (thresholds : ThresholdMap) : List Breach :=
  metrics.filterMap (fun p =>
    match thresholds.lookup p.1, p.2 with
    | some threshold, some value =>
        if value > threshold then some ⟨p.1, value, threshold⟩ else none
    | _, _ => none)

/-! Alert lifecycle operations, alerting.py. -/

/-- Embeds log_alert_event from alerting.py lines 94-117: build an AuditLog
row whose incident_id comes from the incident argument when given, else from
the alert, insert it and commit.  The fresh row id and the utcnow timestamp
are passed in. -/
def log_alert_event (db : DB) (alert : Alert) (event_type : String)
    (actor : Option String) (details : Details) (incident : Option Incident)
    (auditId : UUIDN) (now : Time) : AuditLog × DB :=
  let audit_log : AuditLog :=
    { id := auditId
      incident_id := match incident with
        | some inc => some inc.id
        | none => alert.incident_id
      alert_id := some alert.id
      event_type := event_type
      event_time := now
      actor := actor
      details := details }
  (audit_log, { db with audit_logs := db.audit_logs ++ [audit_log] })

/-- Embeds deliver_alert from alerting.py lines 119-147.  The two channel
sends return booleans (send_email_alert and send_slack_alert catch their own
transport failures and return False), so the outcomes enter as the booleans
email_sent and slack_sent; the function records both flags in one
alert_generated audit entry and returns the disjunction.  The actor defaults
to "system" by the signature of log_alert_event. -/
def deliver_alert (db : DB) (alert : Alert) (incident : Option Incident)
    (email_sent slack_sent : Bool) (auditId : UUIDN) (now : Time) : Bool × DB :=
  let (_, db1) := log_alert_event db alert "alert_generated" (some "system")
    [("email_sent", DVal.bool email_sent), ("slack_sent", DVal.bool slack_sent)]
    incident auditId now
  (email_sent || slack_sent, db1)

/-- Persisting a mutated alert object on commit: the row with the same
primary key is replaced. -/
def DB.updateAlert (db : DB) (a : Alert) : DB :=
  { db with alerts := db.alerts.map (fun x => if x.id = a.id then a else x) }

/-- Embeds resolve_alert from alerting.py lines 149-168: if the alert is
already resolved, return it unchanged with no state change; otherwise set
status and resolved_at, commit, then write the alert_resolved audit entry. -/
def resolve_alert (db : DB) (alert : Alert) (actor : Option String)
    (auditId : UUIDN) (now : Time) : Alert × DB :=
  if alert.status = AlertStatus.resolved then
    (alert, db)
  else
    let alert1 : Alert := { alert with status := AlertStatus.resolved, resolved_at := some now }
    let db1 := DB.updateAlert db alert1
    let (_, db2) := log_alert_event db1 alert1 "alert_resolved" actor
      [("resolved_at", DVal.time now)] none auditId now
    (alert1, db2)

/-- Models the execution of resolve_alert in which the db.commit inside
log_alert_event raises a persistence error: the status change was already
committed at alerting.py line 158, and the audit row added at line 113 is
not yet committed when line 114 raises, so the observable state keeps the
resolved alert and gains no audit entry. -/
def resolve_alert_auditFail (db : DB) (alert : Alert) (now : Time) : DB :=
  if alert.status = AlertStatus.resolved then
    db
  else
    DB.updateAlert db { alert with status := AlertStatus.resolved, resolved_at := some now }

/-! Security event classifier, security_events.py. -/

def SECURITY_EVENT_TYPES : List String :=
  ["unauthorized_access", "configuration_change", "policy_violation",
   "privilege_escalation", "resource_exposure"]

/-- Embeds Python str.replace applied with a single-character pattern, as in
event_type.replace(underscore, space). -/
def pyReplaceChar (s : String) (old new : Char) : String :=
  ⟨s.toList.map (fun c => if c = old then new else c)⟩

/-- Embeds Python str.title for ASCII text: a character is uppercased when
the previous character is not alphabetic, lowercased otherwise. -/
def pyTitle (s : String) : String :=
  ⟨(s.toList.foldl
      (fun (acc : List Char × Bool) c =>
        (acc.1 ++ [if acc.2 then c.toLower else c.toUpper], c.isAlpha))
      ([], false)).1⟩

/-- Embeds the Python expression actor or "system": None and the empty
string are falsy. -/
def pyOrStr (o : Option String) (d : String) : String :=
  match o with
  | some s => if s = "" then d else s
  | none => d

/-- The ASCII single-quote character as a string (used in f-string literals
of the source). -/
def sq : String := ⟨[Char.ofNat 39]⟩

/-- Embeds get_resource from crud.py lines 101-109: first row with the given
id, else a 404. -/
def get_resource (db : DB) (resource_id : UUIDN) : Except HttpError Resource :=
  match db.resources.find? (fun r => r.id == resource_id) with
  | some r => Except.ok r
  | none => Except.error (HttpError.notFound "Resource not found.")

/-- The Alert row built by detect_security_event (security_events.py lines
61-70): type security, status active, synthesized title and description,
severity critical for the three critical event kinds, warning otherwise. -/
def securityAlert (resource : Resource) (event_type : String) (details : Option Details)
    (alertId : UUIDN) (now : Time) : Alert :=
  { id := alertId
    resource_id := some resource.id
    type := AlertType.security
    status := AlertStatus.active
    title := "Security Event: " ++ pyTitle (pyReplaceChar event_type (Char.ofNat 95) (Char.ofNat 32))
    description := some ("Detected security event " ++ sq ++ event_type ++ sq ++
      " on resource " ++ sq ++ resource.name ++ sq)
    triggered_at := now
    resolved_at := none
    severity := if event_type ∈ ["unauthorized_access", "privilege_escalation", "resource_exposure"]
      then "critical" else "warning"
    details := details.getD []
    incident_id := none }

/-- Embeds detect_security_event from security_events.py lines 43-85:
validate the event type, load the resource, create and commit the Alert,
deliver it (which writes the alert_generated audit entry), then write the
security_event_detected audit entry.  The returned DB is the committed
state; on an error it is the unchanged input state.  Channel outcomes and
the generated ids and timestamp are passed in. -/
def detect_security_event (db : DB) (resource_id : UUIDN) (event_type : String)
    (actor : Option String) (details : Option Details)
    (email_sent slack_sent : Bool)
    (alertId genAuditId secAuditId : UUIDN) (now : Time) :
    Except HttpError Alert × DB :=
  if event_type ∉ SECURITY_EVENT_TYPES then
    (Except.error (HttpError.badRequest ("Unsupported security event type: " ++ event_type)), db)
  else
    match get_resource db resource_id with
    | Except.error e => (Except.error e, db)
    | Except.ok resource =>
        let alert : Alert := securityAlert resource event_type details alertId now
        let db1 : DB := { db with alerts := db.alerts ++ [alert] }
        let (_, db2) := deliver_alert db1 alert none email_sent slack_sent genAuditId now
        let (_, db3) := log_alert_event db2 alert "security_event_detected"
          (some (pyOrStr actor "system")) (details.getD []) none secAuditId now
        (Except.ok alert, db3)

/-! Audit log queries, audit_log.py. -/

/-- Embeds get_audit_logs from audit_log.py lines 40-52: optionally filter
by incident id and by alert id (a Python UUID is always truthy, so the
filter applies exactly when the argument is not None), order by event_time
descending, then apply offset and limit. -/
def get_audit_logs (db : DB) (incident_id : Option UUIDN) (alert_id : Option UUIDN)
    (skip : Nat) (limit : Nat) : List AuditLog :=
  let q : List AuditLog := db.audit_logs
  let q : List AuditLog := match incident_id with
    | some iid => q.filter (fun l => l.incident_id == some iid)
    | none => q
  let q : List AuditLog := match alert_id with
    | some aid => q.filter (fun l => l.alert_id == some aid)
    | none => q
  (((q.mergeSort (fun a b => decide (b.event_time ≤ a.event_time))).drop skip).take limit)

/-! Product deletion, crud.py, with the ORM cascade semantics of models.py. -/

/-- Embeds delete_product from crud.py lines 90-97 together with the ORM
cascade declarations of models.py: Product.resources, Resource.alerts,
Resource.incidents, Incident.alerts and Incident.audit_logs all carry
cascade="all, delete-orphan", so deleting a product also deletes its
resources, the alerts and incidents of those resources, the alerts grouped
under those incidents, and every audit-log entry owned by one of the
deleted incidents. -/
def delete_product (db : DB) (product_id : UUIDN) : Except HttpError Unit × DB :=
  match db.products.find? (fun p => p.id == product_id) with
  | none => (Except.error (HttpError.notFound "Product not found."), db)
  | some product =>
      let deadRes := (db.resources.filter (fun r => r.product_id == product.id)).map Resource.id
      let deadInc := (db.incidents.filter (fun i =>
        match i.resource_id with
        | some rid => deadRes.contains rid
        | none => false)).map Incident.id
      (Except.ok (), { db with
        products := db.products.filter (fun p => !(p.id == product.id))
        resources := db.resources.filter (fun r => !(r.product_id == product.id))
        incidents := db.incidents.filter (fun i =>
          match i.resource_id with
          | some rid => !(deadRes.contains rid)
          | none => true)
        alerts := db.alerts.filter (fun a =>
          !(match a.resource_id with
            | some rid => deadRes.contains rid
            | none => false) &&
          !(match a.incident_id with
            | some iid => deadInc.contains iid
            | none => false))
        audit_logs := db.audit_logs.filter (fun l =>
          match l.incident_id with
          | some iid => !(deadInc.contains iid)
          | none => true) })

/-- Counts the audit entries with a given event type. -/
def countEvent (logs : List AuditLog) (ev : String) : Nat :=
  (logs.filter (fun l => l.event_type == ev)).length

/-- The invariant of spec section 3: resolved_at is set exactly when the
status is resolved. -/
def Alert.resolvedInv (a : Alert) : Prop :=
  a.resolved_at.isSome = true ↔ a.status = AlertStatus.resolved

instance (a : Alert) : Decidable a.resolvedInv := by
  unfold Alert.resolvedInv
  infer_instance

/-- The invariant holds of every alert in the store. -/
def DB.alertsInv (db : DB) : Prop :=
  ∀ a ∈ db.alerts, a.resolvedInv

instance (db : DB) : Decidable db.alertsInv := by
  unfold DB.alertsInv
  infer_instance

/-! Concrete sample data used by the closed witness theorems. -/

/-- A sample active alert. -/
def sampleAlert : Alert :=
  { id := 1, resource_id := none, type := AlertType.resource,
    status := AlertStatus.active, title := "t", description := none,
    triggered_at := 0, resolved_at := none, severity := "warning",
    details := [], incident_id := none }

/-- A sample store whose only alert is sampleAlert. -/
def sampleDB : DB :=
  { products := [], resources := [], alerts := [sampleAlert],
    incidents := [], audit_logs := [] }

/-- A sample monitored resource. -/
def sampleResource : Resource :=
  { id := 2, product_id := 1, name := "db-server", cloud_id := "i-1",
    cloud_provider := "aws", resource_type := "ec2", metadata := [],
    monitoring_enabled := true, created_at := 0, updated_at := 0 }

/-- A sample store holding just sampleResource. -/
def sampleResDB : DB :=
  { products := [], resources := [sampleResource], alerts := [],
    incidents := [], audit_logs := [] }

/-- Sample audit entries with mixed incident ids and event times. -/
def sampleLogs : List AuditLog :=
  [ { id := 10, incident_id := some 3, alert_id := none,
      event_type := "alert_generated", event_time := 5, actor := some "system", details := [] },
    { id := 11, incident_id := some 4, alert_id := none,
      event_type := "alert_resolved", event_time := 7, actor := some "system", details := [] },
    { id := 12, incident_id := some 3, alert_id := none,
      event_type := "alert_resolved", event_time := 9, actor := some "ops", details := [] } ]

/-- A sample store holding sampleLogs. -/
def sampleLogDB : DB :=
  { products := [], resources := [], alerts := [], incidents := [],
    audit_logs := sampleLogs }

/-- Failing-input data for the cascade bug: a product owning a resource. -/
def productC6 : Product :=
  { id := 1, name := "p", description := none, created_at := 0, updated_at := 0 }

/-- An incident on that resource. -/
def incidentC6 : Incident :=
  { id := 3, resource_id := some 2, status := IncidentStatus.opened, title := "inc",
    description := none, opened_at := 0, closed_at := none, created_by := none }

/-- An audit entry owned by that incident. -/
def auditC6 : AuditLog :=
  { id := 4, incident_id := some 3, alert_id := none, event_type := "alert_resolved",
    event_time := 1, actor := some "system", details := [] }

/-- The failing store: product 1 owns resource 2, incident 3 sits on
resource 2, audit entry 4 is owned by incident 3. -/
def dbC6 : DB :=
  { products := [productC6],
    resources := [{ sampleResource with id := 2, product_id := 1 }],
    alerts := [], incidents := [incidentC6], audit_logs := [auditC6] }

/-! Theorems. -/

/-- Helper: mapping a filterMap result is a sublist of mapping the input,
whenever the kept elements project back onto their sources. -/
theorem map_filterMap_sublist {α β γ : Type} (f : α → Option β) (g : β → γ) (h : α → γ)
    (H : ∀ a b, f a = some b → g b = h a) (l : List α) :
    ((l.filterMap f).map g).Sublist (l.map h) := by
  induction l with
  | nil => simp
  | cons a l ih =>
      rw [List.filterMap_cons, List.map_cons]
      cases hfa : f a with
      | none => exact ih.cons _
      | some b =>
          rw [List.map_cons, ← H a b hfa]
          exact ih.cons₂ _

/-- C5: evaluate_metrics reports a breach for metric m exactly when m maps
to a present value in the metric mapping, has a threshold, and the value
exceeds the threshold; metrics with a missing observation or missing
threshold are skipped, and the output order follows the input iteration
order (the breached metric names form a sublist of the metric names).
The function is a pure Lean function, hence deterministic and free of
side effects. -/
theorem evaluate_metrics_spec (metrics : MetricMap) (thresholds : ThresholdMap) (b : Breach) :
    (b ∈ evaluate_metrics metrics thresholds ↔
      ((b.metric, some b.value) ∈ metrics ∧
        thresholds.lookup b.metric = some b.threshold ∧ b.threshold < b.value)) ∧
    ((evaluate_metrics metrics thresholds).map Breach.metric).Sublist
      (metrics.map Prod.fst) := by
  constructor
  · unfold evaluate_metrics
    rw [List.mem_filterMap]
    constructor
    · rintro ⟨⟨m, v⟩, hmem, hf⟩
      dsimp at hf
      cases hl : thresholds.lookup m with
      | none => rw [hl] at hf; cases v <;> simp at hf
      | some t =>
          rw [hl] at hf
          cases v with
          | none => simp at hf
          | some value =>
              dsimp only at hf
              by_cases hgt : value > t
              · rw [if_pos hgt] at hf
                cases hf
                exact ⟨hmem, hl, hgt⟩
              · rw [if_neg hgt] at hf; cases hf
    · rintro ⟨hmem, hl, hgt⟩
      refine ⟨(b.metric, some b.value), hmem, ?_⟩
      dsimp only
      rw [hl]
      dsimp only
      rw [if_pos hgt]
  · exact map_filterMap_sublist _ _ _
      (by
        rintro ⟨m, v⟩ br hf
        dsimp at hf ⊢
        cases hl : thresholds.lookup m with
        | none => rw [hl] at hf; cases v <;> simp at hf
        | some t =>
            rw [hl] at hf
            cases v with
            | none => simp at hf
            | some value =>
                dsimp only at hf
                by_cases hgt : value > t
                · rw [if_pos hgt] at hf; cases hf; rfl
                · rw [if_neg hgt] at hf; cases hf) metrics

/-- C1: deliver_alert writes exactly one audit entry, of event type
alert_generated, whose details record the two per-channel boolean outcomes,
for every combination of outcomes — including both channels failing — and
returns the disjunction of the per-channel results.  The entry is appended
to the store in the same state that is handed back to the caller, so it is
written even when failure is then reported. -/
theorem deliver_alert_audit (db : DB) (alert : Alert) (incident : Option Incident)
    (email_sent slack_sent : Bool) (auditId : UUIDN) (now : Time) :
    ∃ entry : AuditLog,
      (deliver_alert db alert incident email_sent slack_sent auditId now).2.audit_logs
        = db.audit_logs ++ [entry] ∧
      entry.event_type = "alert_generated" ∧
      entry.details.lookup "email_sent" = some (DVal.bool email_sent) ∧
      entry.details.lookup "slack_sent" = some (DVal.bool slack_sent) ∧
      (deliver_alert db alert incident email_sent slack_sent auditId now).1
        = (email_sent || slack_sent) :=
  ⟨_, rfl, rfl, rfl, rfl, rfl⟩

/-- C9: deliver_alert has no effect on any stored alert (severity, status,
resolved_at and all other fields included) nor on any other table; its only
state effect is appending one audit entry. -/
theorem deliver_alert_frame (db : DB) (alert : Alert) (incident : Option Incident)
    (email_sent slack_sent : Bool) (auditId : UUIDN) (now : Time) :
    ∃ entry : AuditLog,
      (deliver_alert db alert incident email_sent slack_sent auditId now).2
        = { db with audit_logs := db.audit_logs ++ [entry] } ∧
      (deliver_alert db alert incident email_sent slack_sent auditId now).2.alerts
        = db.alerts ∧
      (deliver_alert db alert incident email_sent slack_sent auditId now).2.products
        = db.products ∧
      (deliver_alert db alert incident email_sent slack_sent auditId now).2.resources
        = db.resources ∧
      (deliver_alert db alert incident email_sent slack_sent auditId now).2.incidents
        = db.incidents :=
  ⟨_, rfl, rfl, rfl, rfl, rfl⟩

/-- C2: resolve_alert is idempotent.  An already-resolved alert is returned
unchanged with no new audit entry; otherwise the alert is marked resolved
with resolved_at set to the current time, the change is persisted, exactly
one alert_resolved audit entry is written carrying resolved_at in its
details and the given actor, and a second resolve of the result is a no-op,
so the two calls produce exactly one alert_resolved audit entry in total. -/
theorem resolve_alert_idempotent (db : DB) (alert : Alert) (actor : Option String)
    (auditId : UUIDN) (now : Time) (auditId2 : UUIDN) (now2 : Time) :
    (alert.status = AlertStatus.resolved →
      resolve_alert db alert actor auditId now = (alert, db)) ∧
    (alert.status ≠ AlertStatus.resolved →
      (resolve_alert db alert actor auditId now).1.status = AlertStatus.resolved ∧
      (resolve_alert db alert actor auditId now).1.resolved_at = some now ∧
      (resolve_alert db alert actor auditId now).2.alerts
        = db.alerts.map (fun x => if x.id = alert.id
            then (resolve_alert db alert actor auditId now).1 else x) ∧
      (∃ entry : AuditLog,
        (resolve_alert db alert actor auditId now).2.audit_logs
          = db.audit_logs ++ [entry] ∧
        entry.event_type = "alert_resolved" ∧
        entry.details = [("resolved_at", DVal.time now)] ∧
        entry.actor = actor) ∧
      resolve_alert (resolve_alert db alert actor auditId now).2
          (resolve_alert db alert actor auditId now).1 actor auditId2 now2
        = ((resolve_alert db alert actor auditId now).1,
           (resolve_alert db alert actor auditId now).2) ∧
      countEvent (resolve_alert db alert actor auditId now).2.audit_logs "alert_resolved"
        = countEvent db.audit_logs "alert_resolved" + 1) := by
  constructor
  · intro h
    unfold resolve_alert
    rw [if_pos h]
  · intro h
    have e1 : resolve_alert db alert actor auditId now
        = ({ alert with status := AlertStatus.resolved, resolved_at := some now },
           { db with
             alerts := db.alerts.map (fun x => if x.id = alert.id
               then { alert with status := AlertStatus.resolved, resolved_at := some now }
               else x)
             audit_logs := db.audit_logs ++
               [{ id := auditId
                  incident_id := alert.incident_id
                  alert_id := some alert.id
                  event_type := "alert_resolved"
                  event_time := now
                  actor := actor
                  details := [("resolved_at", DVal.time now)] }] }) := by
      unfold resolve_alert
      rw [if_neg h]
      rfl
    rw [e1]
    refine ⟨rfl, rfl, rfl, ⟨_, rfl, rfl, rfl, rfl⟩, ?_, ?_⟩
    · unfold resolve_alert
      rw [if_pos rfl]
    · simp [countEvent, List.filter_append]

/-- Witness for C2 at a concrete active alert. -/
theorem resolve_alert_idempotent_witness :
    sampleAlert.status ≠ AlertStatus.resolved ∧
    ((resolve_alert sampleDB sampleAlert (some "ops") 5 9).1.status = AlertStatus.resolved ∧
      (resolve_alert sampleDB sampleAlert (some "ops") 5 9).1.resolved_at = some 9 ∧
      (resolve_alert sampleDB sampleAlert (some "ops") 5 9).2.alerts
        = sampleDB.alerts.map (fun x => if x.id = sampleAlert.id
            then (resolve_alert sampleDB sampleAlert (some "ops") 5 9).1 else x) ∧
      (∃ entry : AuditLog,
        (resolve_alert sampleDB sampleAlert (some "ops") 5 9).2.audit_logs
          = sampleDB.audit_logs ++ [entry] ∧
        entry.event_type = "alert_resolved" ∧
        entry.details = [("resolved_at", DVal.time 9)] ∧
        entry.actor = some "ops") ∧
      resolve_alert (resolve_alert sampleDB sampleAlert (some "ops") 5 9).2
          (resolve_alert sampleDB sampleAlert (some "ops") 5 9).1 (some "ops") 6 10
        = ((resolve_alert sampleDB sampleAlert (some "ops") 5 9).1,
           (resolve_alert sampleDB sampleAlert (some "ops") 5 9).2) ∧
      countEvent (resolve_alert sampleDB sampleAlert (some "ops") 5 9).2.audit_logs "alert_resolved"
        = countEvent sampleDB.audit_logs "alert_resolved" + 1) :=
  ⟨by decide,
   (resolve_alert_idempotent sampleDB sampleAlert (some "ops") 5 9 6 10).2 (by decide)⟩

/-- C4: detect_security_event on an unrecognized event type fails with a
bad-request client error and leaves the store untouched: no Alert row and
no AuditLog row is created. -/
theorem detect_security_event_invalid (db : DB) (resource_id : UUIDN) (event_type : String)
    (actor : Option String) (details : Option Details) (email_sent slack_sent : Bool)
    (alertId genAuditId secAuditId : UUIDN) (now : Time)
    (h : event_type ∉ SECURITY_EVENT_TYPES) :
    detect_security_event db resource_id event_type actor details email_sent slack_sent
        alertId genAuditId secAuditId now
      = (Except.error (HttpError.badRequest
          ("Unsupported security event type: " ++ event_type)), db) := by
  unfold detect_security_event
  rw [if_pos h]

/-- Witness for C4 at the event type named in the spec example. -/
theorem detect_security_event_invalid_witness :
    "rm_-rf_root" ∉ SECURITY_EVENT_TYPES ∧
    detect_security_event sampleResDB 2 "rm_-rf_root" none none true true 7 8 9 0
      = (Except.error (HttpError.badRequest
          ("Unsupported security event type: " ++ "rm_-rf_root")), sampleResDB) :=
  ⟨by decide,
   detect_security_event_invalid sampleResDB 2 "rm_-rf_root" none none true true 7 8 9 0
     (by decide)⟩

/-- C10: in resolve_alert the status change is committed (line 158) before
the audit entry is committed inside log_alert_event; when the audit write
then fails, the store keeps the alert resolved but holds no new
alert_resolved entry, and the successful run differs from that intermediate
state exactly by the appended audit entry — resolve is not atomic with its
audit record. -/
theorem resolve_alert_not_atomic (db : DB) (alert : Alert) (actor : Option String)
    (auditId : UUIDN) (now : Time) (h : alert.status ≠ AlertStatus.resolved) :
    (resolve_alert_auditFail db alert now).alerts
      = db.alerts.map (fun x => if x.id = alert.id
          then { alert with status := AlertStatus.resolved, resolved_at := some now }
          else x) ∧
    (resolve_alert_auditFail db alert now).audit_logs = db.audit_logs ∧
    countEvent (resolve_alert_auditFail db alert now).audit_logs "alert_resolved"
      = countEvent db.audit_logs "alert_resolved" ∧
    ∃ entry : AuditLog,
      entry.event_type = "alert_resolved" ∧
      (resolve_alert db alert actor auditId now).2
        = { resolve_alert_auditFail db alert now with
            audit_logs := (resolve_alert_auditFail db alert now).audit_logs ++ [entry] } := by
  have e0 : resolve_alert_auditFail db alert now
      = DB.updateAlert db { alert with status := AlertStatus.resolved, resolved_at := some now } := by
    unfold resolve_alert_auditFail
    rw [if_neg h]
  have e1 : resolve_alert db alert actor auditId now
      = ({ alert with status := AlertStatus.resolved, resolved_at := some now },
         { DB.updateAlert db { alert with status := AlertStatus.resolved, resolved_at := some now } with
           audit_logs := (DB.updateAlert db
             { alert with status := AlertStatus.resolved, resolved_at := some now }).audit_logs ++
               [{ id := auditId
                  incident_id := alert.incident_id
                  alert_id := some alert.id
                  event_type := "alert_resolved"
                  event_time := now
                  actor := actor
                  details := [("resolved_at", DVal.time now)] }] }) := by
    unfold resolve_alert
    rw [if_neg h]
    rfl
  rw [e0, e1]
  exact ⟨rfl, rfl, rfl, _, rfl, rfl⟩

/-- Witness for C10 at a concrete active alert. -/
theorem resolve_alert_not_atomic_witness :
    sampleAlert.status ≠ AlertStatus.resolved ∧
    ((resolve_alert_auditFail sampleDB sampleAlert 9).alerts
      = sampleDB.alerts.map (fun x => if x.id = sampleAlert.id
          then { sampleAlert with status := AlertStatus.resolved, resolved_at := some 9 }
          else x) ∧
    (resolve_alert_auditFail sampleDB sampleAlert 9).audit_logs = sampleDB.audit_logs ∧
    countEvent (resolve_alert_auditFail sampleDB sampleAlert 9).audit_logs "alert_resolved"
      = countEvent sampleDB.audit_logs "alert_resolved" ∧
    ∃ entry : AuditLog,
      entry.event_type = "alert_resolved" ∧
      (resolve_alert sampleDB sampleAlert (some "ops") 5 9).2
        = { resolve_alert_auditFail sampleDB sampleAlert 9 with
            audit_logs := (resolve_alert_auditFail sampleDB sampleAlert 9).audit_logs
              ++ [entry] }) :=
  ⟨by decide, resolve_alert_not_atomic sampleDB sampleAlert (some "ops") 5 9 (by decide)⟩

/-- C3: detect_security_event on a recognized event type returns an Alert
of type security and status active, with severity critical exactly for the
three critical event kinds and warning otherwise, and appends exactly two
audit entries to the store: an alert_generated entry from delivery and a
distinct security_event_detected entry carrying the given evidence details
and actor; no other table changes. -/
theorem detect_security_event_success (db : DB) (resource : Resource) (resource_id : UUIDN)
    (event_type : String) (actor : Option String) (details : Option Details)
    (email_sent slack_sent : Bool) (alertId genAuditId secAuditId : UUIDN) (now : Time)
    (hev : event_type ∈ SECURITY_EVENT_TYPES)
    (hres : get_resource db resource_id = Except.ok resource) :
    ∃ (alert : Alert) (e1 e2 : AuditLog),
      (detect_security_event db resource_id event_type actor details email_sent slack_sent
          alertId genAuditId secAuditId now).1 = Except.ok alert ∧
      (detect_security_event db resource_id event_type actor details email_sent slack_sent
          alertId genAuditId secAuditId now).2.alerts = db.alerts ++ [alert] ∧
      (detect_security_event db resource_id event_type actor details email_sent slack_sent
          alertId genAuditId secAuditId now).2.audit_logs = db.audit_logs ++ [e1, e2] ∧
      (detect_security_event db resource_id event_type actor details email_sent slack_sent
          alertId genAuditId secAuditId now).2.products = db.products ∧
      (detect_security_event db resource_id event_type actor details email_sent slack_sent
          alertId genAuditId secAuditId now).2.resources = db.resources ∧
      (detect_security_event db resource_id event_type actor details email_sent slack_sent
          alertId genAuditId secAuditId now).2.incidents = db.incidents ∧
      alert.type = AlertType.security ∧
      alert.status = AlertStatus.active ∧
      alert.severity = (if event_type ∈ ["unauthorized_access", "privilege_escalation",
          "resource_exposure"] then "critical" else "warning") ∧
      e1.event_type = "alert_generated" ∧
      e2.event_type = "security_event_detected" ∧
      e1 ≠ e2 ∧
      e2.details = details.getD [] ∧
      e2.actor = some (pyOrStr actor "system") := by
  have hnot : ¬ event_type ∉ SECURITY_EVENT_TYPES := not_not_intro hev
  unfold detect_security_event
  rw [if_neg hnot, hres]
  dsimp only
  refine ⟨securityAlert resource event_type details alertId now,
    { id := genAuditId, incident_id := none, alert_id := some alertId,
      event_type := "alert_generated", event_time := now, actor := some "system",
      details := [("email_sent", DVal.bool email_sent), ("slack_sent", DVal.bool slack_sent)] },
    { id := secAuditId, incident_id := none, alert_id := some alertId,
      event_type := "security_event_detected", event_time := now,
      actor := some (pyOrStr actor "system"), details := details.getD [] },
    rfl, rfl, ?_, rfl, rfl, rfl, rfl, rfl, rfl, rfl, rfl, ?_, rfl, rfl⟩
  · simp only [deliver_alert, log_alert_event, List.append_assoc]
    rfl
  · intro hc
    have h2 := congrArg AuditLog.event_type hc
    dsimp only at h2
    exact absurd h2 (by decide)

/-- Witness for C3 at the example event type privilege_escalation from the spec. -/
theorem detect_security_event_success_witness :
    "privilege_escalation" ∈ SECURITY_EVENT_TYPES ∧
    get_resource sampleResDB 2 = Except.ok sampleResource ∧
    (∃ (alert : Alert) (e1 e2 : AuditLog),
      (detect_security_event sampleResDB 2 "privilege_escalation" (some "sec") none true false
          7 8 9 0).1 = Except.ok alert ∧
      (detect_security_event sampleResDB 2 "privilege_escalation" (some "sec") none true false
          7 8 9 0).2.alerts = sampleResDB.alerts ++ [alert] ∧
      (detect_security_event sampleResDB 2 "privilege_escalation" (some "sec") none true false
          7 8 9 0).2.audit_logs = sampleResDB.audit_logs ++ [e1, e2] ∧
      (detect_security_event sampleResDB 2 "privilege_escalation" (some "sec") none true false
          7 8 9 0).2.products = sampleResDB.products ∧
      (detect_security_event sampleResDB 2 "privilege_escalation" (some "sec") none true false
          7 8 9 0).2.resources = sampleResDB.resources ∧
      (detect_security_event sampleResDB 2 "privilege_escalation" (some "sec") none true false
          7 8 9 0).2.incidents = sampleResDB.incidents ∧
      alert.type = AlertType.security ∧
      alert.status = AlertStatus.active ∧
      alert.severity = (if "privilege_escalation" ∈ ["unauthorized_access",
          "privilege_escalation", "resource_exposure"] then "critical" else "warning") ∧
      e1.event_type = "alert_generated" ∧
      e2.event_type = "security_event_detected" ∧
      e1 ≠ e2 ∧
      e2.details = Option.getD (none : Option Details) [] ∧
      e2.actor = some (pyOrStr (some "sec") "system")) :=
  ⟨by decide, rfl,
   detect_security_event_success sampleResDB sampleResource 2 "privilege_escalation"
     (some "sec") none true false 7 8 9 0 (by decide) rfl⟩

/-- C7: the invariant that resolved_at is set exactly when the status is
resolved is established by alert creation in detect_security_event and
preserved by deliver_alert and resolve_alert: alerts are created active
with no resolved_at, delivery touches no alert, and the only operation
that sets resolved_at is the one that sets the status to resolved. -/
theorem alert_resolved_at_invariant (db : DB) (alert : Alert) (incident : Option Incident)
    (resource_id : UUIDN) (event_type : String) (actor actor2 : Option String)
    (details : Option Details) (email_sent slack_sent : Bool)
    (alertId genAuditId secAuditId auditId : UUIDN) (now : Time)
    (hdb : DB.alertsInv db) (hmem : alert ∈ db.alerts) :
    (∀ (al : Alert) (db3 : DB),
        detect_security_event db resource_id event_type actor details email_sent slack_sent
          alertId genAuditId secAuditId now = (Except.ok al, db3) →
        Alert.resolvedInv al ∧ DB.alertsInv db3) ∧
    DB.alertsInv (deliver_alert db alert incident email_sent slack_sent auditId now).2 ∧
    Alert.resolvedInv (resolve_alert db alert actor2 auditId now).1 ∧
    DB.alertsInv (resolve_alert db alert actor2 auditId now).2 := by
  have hres : ∀ h : alert.status ≠ AlertStatus.resolved,
      Alert.resolvedInv { alert with status := AlertStatus.resolved, resolved_at := some now } := by
    intro _
    simp [Alert.resolvedInv]
  refine ⟨?_, ?_, ?_, ?_⟩
  · intro al db3 hok
    by_cases hev : event_type ∉ SECURITY_EVENT_TYPES
    · unfold detect_security_event at hok
      rw [if_pos hev] at hok
      simp at hok
    · unfold detect_security_event at hok
      rw [if_neg hev] at hok
      cases hfind : get_resource db resource_id with
      | error e =>
          rw [hfind] at hok
          simp at hok
      | ok resource =>
          rw [hfind] at hok
          simp only [Prod.mk.injEq, Except.ok.injEq] at hok
          obtain ⟨h1, h2⟩ := hok
          subst h1
          subst h2
          constructor
          · simp [Alert.resolvedInv, securityAlert]
          · intro a ha
            rcases List.mem_append.1 ha with h | h
            · exact hdb a h
            · rcases List.mem_singleton.1 h with rfl
              simp [Alert.resolvedInv, securityAlert]
  · intro a ha
    exact hdb a ha
  · by_cases h : alert.status = AlertStatus.resolved
    · have e : resolve_alert db alert actor2 auditId now = (alert, db) := by
        unfold resolve_alert
        rw [if_pos h]
      rw [e]
      exact hdb alert hmem
    · have e : (resolve_alert db alert actor2 auditId now).1
          = { alert with status := AlertStatus.resolved, resolved_at := some now } := by
        unfold resolve_alert
        rw [if_neg h]
      rw [e]
      exact hres h
  · by_cases h : alert.status = AlertStatus.resolved
    · have e : resolve_alert db alert actor2 auditId now = (alert, db) := by
        unfold resolve_alert
        rw [if_pos h]
      rw [e]
      exact hdb
    · have e : (resolve_alert db alert actor2 auditId now).2.alerts
          = db.alerts.map (fun x => if x.id = alert.id
              then { alert with status := AlertStatus.resolved, resolved_at := some now }
              else x) := by
        unfold resolve_alert
        rw [if_neg h]
        rfl
      intro a ha
      rw [e] at ha
      rcases List.mem_map.1 ha with ⟨x, hx, rfl⟩
      by_cases hid : x.id = alert.id
      · rw [if_pos hid]
        exact hres h
      · rw [if_neg hid]
        exact hdb x hx

/-- Witness for C7 on a store satisfying the invariant. -/
theorem alert_resolved_at_invariant_witness :
    DB.alertsInv sampleDB ∧ sampleAlert ∈ sampleDB.alerts ∧
    ((∀ (al : Alert) (db3 : DB),
        detect_security_event sampleDB 2 "policy_violation" none none true true
          7 8 9 0 = (Except.ok al, db3) →
        Alert.resolvedInv al ∧ DB.alertsInv db3) ∧
    DB.alertsInv (deliver_alert sampleDB sampleAlert none true true 5 0).2 ∧
    Alert.resolvedInv (resolve_alert sampleDB sampleAlert (some "ops") 5 0).1 ∧
    DB.alertsInv (resolve_alert sampleDB sampleAlert (some "ops") 5 0).2) :=
  ⟨by decide, by decide,
   alert_resolved_at_invariant sampleDB sampleAlert none 2 "policy_violation" none
     (some "ops") none true true 7 8 9 5 0 (by decide) (by decide)⟩

/-- Helper: sorting audit entries with the descending event-time comparator
yields a list that is pairwise newest-first. -/
theorem mergeSort_auditOrder (l : List AuditLog) :
    List.Pairwise (fun a b : AuditLog => b.event_time ≤ a.event_time)
      (l.mergeSort (fun a b => decide (b.event_time ≤ a.event_time))) := by
  have h := @List.sorted_mergeSort AuditLog
    (fun a b => decide (b.event_time ≤ a.event_time))
    (by
      intro a b c hab hbc
      simp only [decide_eq_true_eq] at hab hbc ⊢
      exact le_trans hbc hab)
    (by
      intro a b
      simp only [Bool.or_eq_true, decide_eq_true_eq]
      exact Nat.le_total _ _) l
  exact h.imp (fun hd => by simpa using hd)

/-- Helper: when skip is zero and the limit bounds the store size, the
audit-log query is exactly the descending sort of the filtered rows. -/
theorem get_audit_logs_take_all (db : DB) (incident_id alert_id : Option UUIDN)
    (limit : Nat) (hlim : db.audit_logs.length ≤ limit) (l : List AuditLog)
    (hl : l.Sublist db.audit_logs)
    (hq : (match incident_id with
      | some iid => db.audit_logs.filter (fun e => e.incident_id == some iid)
      | none => db.audit_logs) = l)
    (halert : alert_id = none) :
    get_audit_logs db incident_id alert_id 0 limit
      = l.mergeSort (fun a b => decide (b.event_time ≤ a.event_time)) := by
  unfold get_audit_logs
  subst halert
  dsimp only
  rw [hq, List.drop_zero, List.take_of_length_le]
  rw [(List.mergeSort_perm _ _).length_eq]
  exact le_trans hl.length_le hlim

/-- C8: with the incident filter, get_audit_logs returns exactly the stored
entries whose incident_id equals the given id, pairwise ordered newest-first
by event_time; with no filter it returns all stored entries in the same
descending order (stated with skip 0 and a limit bounding the store, the
regime of the defaults for a store within the page size). -/
theorem get_audit_logs_spec (db : DB) (iid : UUIDN) (limit : Nat)
    (hlim : db.audit_logs.length ≤ limit) :
    (∀ e : AuditLog, e ∈ get_audit_logs db (some iid) none 0 limit ↔
        (e ∈ db.audit_logs ∧ e.incident_id = some iid)) ∧
    List.Pairwise (fun a b : AuditLog => b.event_time ≤ a.event_time)
      (get_audit_logs db (some iid) none 0 limit) ∧
    (∀ e : AuditLog, e ∈ get_audit_logs db none none 0 limit ↔ e ∈ db.audit_logs) ∧
    List.Pairwise (fun a b : AuditLog => b.event_time ≤ a.event_time)
      (get_audit_logs db none none 0 limit) := by
  have hfil : get_audit_logs db (some iid) none 0 limit
      = (db.audit_logs.filter (fun e => e.incident_id == some iid)).mergeSort
          (fun a b => decide (b.event_time ≤ a.event_time)) :=
    get_audit_logs_take_all db (some iid) none limit hlim _
      (List.filter_sublist _) rfl rfl
  have hall : get_audit_logs db none none 0 limit
      = db.audit_logs.mergeSort (fun a b => decide (b.event_time ≤ a.event_time)) :=
    get_audit_logs_take_all db none none limit hlim _
      (List.Sublist.refl _) rfl rfl
  refine ⟨?_, ?_, ?_, ?_⟩
  · intro e
    rw [hfil, (List.mergeSort_perm _ _).mem_iff, List.mem_filter]
    simp
  · rw [hfil]
    exact mergeSort_auditOrder _
  · intro e
    rw [hall, (List.mergeSort_perm _ _).mem_iff]
  · rw [hall]
    exact mergeSort_auditOrder _

/-- Witness for C8 on a concrete store of three entries. -/
theorem get_audit_logs_spec_witness :
    sampleLogDB.audit_logs.length ≤ 100 ∧
    ((∀ e : AuditLog, e ∈ get_audit_logs sampleLogDB (some 3) none 0 100 ↔
        (e ∈ sampleLogDB.audit_logs ∧ e.incident_id = some 3)) ∧
    List.Pairwise (fun a b : AuditLog => b.event_time ≤ a.event_time)
      (get_audit_logs sampleLogDB (some 3) none 0 100) ∧
    (∀ e : AuditLog, e ∈ get_audit_logs sampleLogDB none none 0 100 ↔
        e ∈ sampleLogDB.audit_logs) ∧
    List.Pairwise (fun a b : AuditLog => b.event_time ≤ a.event_time)
      (get_audit_logs sampleLogDB none none 0 100)) :=
  ⟨by decide, get_audit_logs_spec sampleLogDB 3 100 (by decide)⟩

/-- C6 fails on the code: the ORM cascades declared in models.py make
delete_product delete the audit entries owned by the incidents of the
resources of the product, although the AuditLog model documents itself as an
immutable audit log.  At the concrete store dbC6, deleting product 1
removes the audit entry auditC6. -/
theorem delete_product_cascade_deletes_audit :
    auditC6 ∈ dbC6.audit_logs ∧
    (delete_product dbC6 1).1 = Except.ok () ∧
    (delete_product dbC6 1).2.audit_logs = [] :=
  ⟨by decide, rfl, by decide⟩

end Backend
